import Mathlib

/-!
A shallow embedding of the Project2 engine (`p2app/engine/main.py`) and event
bus (`p2app/events/event_bus.py`).

The engine owns an optional SQLite connection and dispatches each request event
to a handler that yields zero or more response events.  The store (three tables:
continent, country, region) is modelled as lists of records; SQL statements are
modelled by their row-level semantics (conjunctive equality filters, lookup by
id, append on insert, field overwrite on update).  Low-level connection handles
are tracked in a world holding the set of live (unclosed) handle ids, so that
lifecycle properties (release on failure, close on re-open) are expressible.

Environment nondeterminism is made explicit as oracle inputs carried by each
request: `PathKind` describes what happens when sqlite3 opens the given path,
and an `Option String` oracle on store-touching requests describes whether the
underlying cursor/execute raises an unexpected exception (with its message).
Python exception messages are carried as plain strings; the AttributeError
raised by calling `.cursor()` on a `None` connection is rendered without the
quote characters Python prints around `NoneType` and `cursor`.
-/

namespace Project2

/-- A row of the `continent` table / the `events.Continent` record. -/
structure Continent where
  continent_id : Int
  continent_code : String
  name : String
deriving DecidableEq, Repr

/-- A row of the `country` table / the `events.Country` record.
`wikipedia_link` and `keywords` are nullable columns. -/
structure Country where
  country_id : Int
  country_code : String
  name : String
  continent_id : Int
  wikipedia_link : Option String
  keywords : Option String
deriving DecidableEq, Repr

/-- A row of the `region` table / the `events.Region` record.
`local_code`, `wikipedia_link` and `keywords` are nullable columns. -/
structure Region where
  region_id : Int
  region_code : String
  local_code : Option String
  name : String
  continent_id : Int
  country_id : Int
  wikipedia_link : Option String
  keywords : Option String
deriving DecidableEq, Repr

/-- The relational store behind one catalog file. -/
structure DB where
  continents : List Continent
  countries : List Country
  regions : List Region
deriving DecidableEq, Repr

/-- The world outside the engine: the ids of live (opened, not yet closed)
sqlite connection handles, the next fresh handle id, and the store content. -/
structure World where
  live : List Nat
  nextId : Nat
  db : DB
deriving DecidableEq, Repr

/-- The engine state: `self._connection`, either `none` or a handle id. -/
structure EngineState where
  connection : Option Nat
deriving DecidableEq, Repr

/-- What happens when `sqlite3.connect(path)` and the validation PRAGMAs run on
the file at the requested path:
* `ok` — connect succeeds and the PRAGMA queries succeed (valid catalog);
* `notDb` — connect succeeds but `PRAGMA schema_version` raises
  `sqlite3.DatabaseError` (the file is not an SQLite database);
* `connectFailDb` — `sqlite3.connect` itself raises a `sqlite3.DatabaseError`;
* `connectFailOther msg` — `sqlite3.connect` itself raises some non-database
  exception whose `str` is `msg`. -/
inductive PathKind where
  | ok
  | notDb
  | connectFailDb
  | connectFailOther (msg : String)
deriving DecidableEq, Repr

/-- The response events the engine can yield (`p2app.events`). -/
inductive Event where
  | databaseOpened (path : String)
  | databaseOpenFailed (msg : String)
  | databaseClosed
  | endApplication
  | error (msg : String)
  | continentSearchResult (c : Continent)
  | continentLoaded (c : Continent)
  | continentSaved (c : Continent)
  | saveContinentFailed (msg : String)
  | countrySearchResult (c : Country)
  | countryLoaded (c : Country)
  | countrySaved (c : Country)
  | saveCountryFailed (msg : String)
  | regionSearchResult (r : Region)
  | regionLoaded (r : Region)
  | regionSaved (r : Region)
  | saveRegionFailed (msg : String)
deriving DecidableEq, Repr

/-- `str` of the AttributeError raised by `None.cursor()` (quote characters
that Python prints around the two words are omitted). -/
def attrCursorMsg : String := "NoneType object has no attribute cursor"

/-- Python `str.strip()`: remove leading and trailing whitespace. (Defined by
structural recursion over the character list so that it evaluates by kernel
reduction.) -/
def pyStrip (s : String) : String :=
  String.mk (((s.data.dropWhile Char.isWhitespace).reverse.dropWhile
    Char.isWhitespace).reverse)

/-- `sqlite3.connect` allocates a fresh handle, which becomes live. -/
def World.connect (w : World) : World × Nat :=
  ({ w with live := w.live ++ [w.nextId], nextId := w.nextId + 1 }, w.nextId)

/-- `connection.close()` removes the handle from the live set. -/
def World.closeConn (w : World) (c : Nat) : World :=
  { w with live := w.live.filter (fun x => x ≠ c) }

/-- `Engine._handle_open_database`: connect to the path, validate with PRAGMA
queries, yield `DatabaseOpenedEvent` on success; on `sqlite3.DatabaseError`
or any other exception, close whatever `self._connection` currently refers
to, set it to `None`, and yield one `DatabaseOpenFailedEvent`. -/
def handle_open_database (st : EngineState) (w : World) (path : String)
    (k : PathKind) : EngineState × World × List Event :=
  match k with
  | .ok =>
      -- self._connection = sqlite3.connect(...); PRAGMAs succeed
      let (w1, c) := w.connect
      (⟨some c⟩, w1, [.databaseOpened path])
  | .notDb =>
      -- connect succeeded (field now holds the new handle), PRAGMA raised
      -- DatabaseError; cleanup closes the field's handle and clears it
      let (w1, c) := w.connect
      (⟨none⟩, w1.closeConn c,
       [.databaseOpenFailed "The file is not a valid SQLite database."])
  | .connectFailDb =>
      -- connect itself raised DatabaseError; the assignment never happened,
      -- so the field still holds the previous value, which cleanup closes
      match st.connection with
      | some c =>
          (⟨none⟩, w.closeConn c,
           [.databaseOpenFailed "The file is not a valid SQLite database."])
      | none =>
          (⟨none⟩, w,
           [.databaseOpenFailed "The file is not a valid SQLite database."])
  | .connectFailOther e =>
      match st.connection with
      | some c =>
          (⟨none⟩, w.closeConn c,
           [.databaseOpenFailed ("An unexpected error occurred: " ++ e)])
      | none =>
          (⟨none⟩, w,
           [.databaseOpenFailed ("An unexpected error occurred: " ++ e)])

/-- `Engine._handle_close_database`: close the connection if held, yield
`DatabaseClosedEvent` unconditionally. -/
def handle_close_database (st : EngineState) (w : World) :
    EngineState × World × List Event :=
  match st.connection with
  | some c => (⟨none⟩, w.closeConn c, [.databaseClosed])
  | none => (⟨none⟩, w, [.databaseClosed])

/-- `Engine._handle_quit_application`. -/
def handle_quit_application (st : EngineState) (w : World) :
    EngineState × World × List Event :=
  (st, w, [.endApplication])

/-- Row predicate of the continent search query
`WHERE TRUE [AND continent_code = ?] [AND name = ?]` built from the non-blank
criteria (a blank criterion contributes no clause). -/
def continentMatches (code nm : String) (c : Continent) : Bool :=
  (code == "" || c.continent_code == code) && (nm == "" || c.name == nm)

/-- `Engine._handle_search_continent`: silent no-op when no connection; one
`ErrorEvent` when both trimmed criteria are blank; otherwise run the filter
query and yield one `ContinentSearchResultEvent` per row, or one `ErrorEvent`
when no row matches; any exception at the cursor becomes one `ErrorEvent`. -/
def handle_search_continent (st : EngineState) (w : World)
    (code? nm? : Option String) (oracle : Option String) :
    EngineState × World × List Event :=
  match st.connection with
  | none => (st, w, [])
  | some _ =>
      let input_code := pyStrip (code?.getD "")
      let input_name := pyStrip (nm?.getD "")
      if input_code == "" && input_name == "" then
        (st, w, [.error "No continent code or continent name has been provided."])
      else
        match oracle with
        | some e =>
            (st, w, [.error ("Cannot search continent due to an unexpected error - " ++ e)])
        | none =>
            let rows := w.db.continents.filter (continentMatches input_code input_name)
            if rows.isEmpty then
              (st, w, [.error "No continents have been found."])
            else
              (st, w, rows.map (fun c => .continentSearchResult c))

/-- `Engine._handle_load_continent`: `SELECT ... WHERE continent_id = ?` with
`fetchone`; yield `ContinentLoadedEvent` if a row was found, nothing if not;
any exception (including the AttributeError when no connection is held)
becomes one `ErrorEvent`. -/
def handle_load_continent (st : EngineState) (w : World) (cid : Int)
    (oracle : Option String) : EngineState × World × List Event :=
  match st.connection with
  | none =>
      (st, w, [.error ("Failed to load continent due to an unexpected error - " ++ attrCursorMsg)])
  | some _ =>
      match oracle with
      | some e =>
          (st, w, [.error ("Failed to load continent due to an unexpected error - " ++ e)])
      | none =>
          match w.db.continents.find? (fun c => c.continent_id == cid) with
          | some c => (st, w, [.continentLoaded c])
          | none => (st, w, [])

/-- `Engine._handle_save_new_continent`: `INSERT INTO continent ... VALUES
(?, ?, ?)` then commit and yield `ContinentSavedEvent`; any exception
(AttributeError when no connection, UNIQUE-constraint violation on a duplicate
id, or an oracle failure) becomes one `SaveContinentFailedEvent` and leaves
the store unchanged. -/
def handle_save_new_continent (st : EngineState) (w : World) (c : Continent)
    (oracle : Option String) : EngineState × World × List Event :=
  match st.connection with
  | none =>
      (st, w, [.saveContinentFailed ("Could not save new continent because of an error - " ++ attrCursorMsg)])
  | some _ =>
      match oracle with
      | some e =>
          (st, w, [.saveContinentFailed ("Could not save new continent because of an error - " ++ e)])
      | none =>
          if w.db.continents.any (fun r => r.continent_id == c.continent_id) then
            (st, w, [.saveContinentFailed ("Could not save new continent because of an error - UNIQUE constraint failed: continent.continent_id")])
          else
            (st, { w with db := { w.db with continents := w.db.continents ++ [c] } },
             [.continentSaved c])

/-- `Engine._handle_save_continent`: `UPDATE continent SET name = ?,
continent_code = ? WHERE continent_id = ?` then commit and yield
`ContinentSavedEvent` (even when zero rows matched the id); any exception
becomes one `SaveContinentFailedEvent`. -/
def handle_save_continent (st : EngineState) (w : World) (c : Continent)
    (oracle : Option String) : EngineState × World × List Event :=
  match st.connection with
  | none =>
      (st, w, [.saveContinentFailed ("Could not update continent because of an error - " ++ attrCursorMsg)])
  | some _ =>
      match oracle with
      | some e =>
          (st, w, [.saveContinentFailed ("Could not update continent because of an error - " ++ e)])
      | none =>
          let upd := w.db.continents.map (fun r =>
            if r.continent_id == c.continent_id then
              { r with name := c.name, continent_code := c.continent_code }
            else r)
          (st, { w with db := { w.db with continents := upd } },
           [.continentSaved c])

/-- Python truthiness coercion `x if x else None` on a nullable string: both
`None` and the empty string are falsy and become `None` (bound as SQL null). -/
def falsyToNone (s : Option String) : Option String :=
  match s with
  | none => none
  | some v => if v == "" then none else some v

/-- Row predicate of the country search query
`WHERE TRUE [AND country_code = ?] [AND name = ?]`. -/
def countryMatches (code nm : String) (c : Country) : Bool :=
  (code == "" || c.country_code == code) && (nm == "" || c.name == nm)

/-- `Engine._handle_search_country`: same shape as the continent search. -/
def handle_search_country (st : EngineState) (w : World)
    (code? nm? : Option String) (oracle : Option String) :
    EngineState × World × List Event :=
  match st.connection with
  | none => (st, w, [])
  | some _ =>
      let input_code := pyStrip (code?.getD "")
      let input_name := pyStrip (nm?.getD "")
      if input_code == "" && input_name == "" then
        (st, w, [.error "No country code or country name has been provided."])
      else
        match oracle with
        | some e =>
            (st, w, [.error ("Failed to search country due to an unexpected error - " ++ e)])
        | none =>
            let rows := w.db.countries.filter (countryMatches input_code input_name)
            if rows.isEmpty then
              (st, w, [.error "No countries have been found."])
            else
              (st, w, rows.map (fun c => .countrySearchResult c))

/-- `Engine._handle_load_country`: same shape as the continent load. -/
def handle_load_country (st : EngineState) (w : World) (cid : Int)
    (oracle : Option String) : EngineState × World × List Event :=
  match st.connection with
  | none =>
      (st, w, [.error ("Failed to load country due to an unexpected error - " ++ attrCursorMsg)])
  | some _ =>
      match oracle with
      | some e =>
          (st, w, [.error ("Failed to load country due to an unexpected error - " ++ e)])
      | none =>
          match w.db.countries.find? (fun c => c.country_id == cid) with
          | some c => (st, w, [.countryLoaded c])
          | none => (st, w, [])

/-- The row the country insert statement binds: every field verbatim except
`keywords`, which is bound as `country.keywords if country.keywords else None`. -/
def countryInsertRow (c : Country) : Country :=
  { c with keywords := falsyToNone c.keywords }

/-- `Engine._handle_save_new_country`: `INSERT INTO country ...` binding
`keywords` through the falsy-to-null coercion (and `wikipedia_link` verbatim),
then commit and yield `CountrySavedEvent` carrying the original record; any
exception becomes one `SaveCountryFailedEvent` and leaves the store unchanged. -/
def handle_save_new_country (st : EngineState) (w : World) (c : Country)
    (oracle : Option String) : EngineState × World × List Event :=
  match st.connection with
  | none =>
      (st, w, [.saveCountryFailed ("Could not save new country because of an error - " ++ attrCursorMsg)])
  | some _ =>
      match oracle with
      | some e =>
          (st, w, [.saveCountryFailed ("Could not save new country because of an error - " ++ e)])
      | none =>
          if w.db.countries.any (fun r => r.country_id == c.country_id) then
            (st, w, [.saveCountryFailed ("Could not save new country because of an error - UNIQUE constraint failed: country.country_id")])
          else
            (st, { w with db := { w.db with countries := w.db.countries ++ [countryInsertRow c] } },
             [.countrySaved c])

/-- `Engine._handle_save_country`: `UPDATE country SET name = ?, country_code
= ?, continent_id = ?, wikipedia_link = ?, keywords = ? WHERE country_id = ?`
(keywords bound through the falsy-to-null coercion, `wikipedia_link`
verbatim), commit, and yield `CountrySavedEvent` even when zero rows matched;
any exception becomes one `SaveCountryFailedEvent`. -/
def handle_save_country (st : EngineState) (w : World) (c : Country)
    (oracle : Option String) : EngineState × World × List Event :=
  match st.connection with
  | none =>
      (st, w, [.saveCountryFailed ("Could not update country because of an error - " ++ attrCursorMsg)])
  | some _ =>
      match oracle with
      | some e =>
          (st, w, [.saveCountryFailed ("Could not update country because of an error - " ++ e)])
      | none =>
          let upd := w.db.countries.map (fun r =>
            if r.country_id == c.country_id then
              { r with name := c.name, country_code := c.country_code,
                       continent_id := c.continent_id,
                       wikipedia_link := c.wikipedia_link,
                       keywords := falsyToNone c.keywords }
            else r)
          (st, { w with db := { w.db with countries := upd } },
           [.countrySaved c])

/-- Row predicate of the region search query `WHERE TRUE [AND region_code = ?]
[AND local_code = ?] [AND name = ?]`; a SQL-null `local_code` never equals a
bound parameter. -/
def regionMatches (rcode lcode nm : String) (r : Region) : Bool :=
  (rcode == "" || r.region_code == rcode) &&
  (lcode == "" || r.local_code == some lcode) &&
  (nm == "" || r.name == nm)

/-- `Engine._handle_search_region`: same shape, three criteria. -/
def handle_search_region (st : EngineState) (w : World)
    (rcode? lcode? nm? : Option String) (oracle : Option String) :
    EngineState × World × List Event :=
  match st.connection with
  | none => (st, w, [])
  | some _ =>
      let input_region_code := pyStrip (rcode?.getD "")
      let input_local_code := pyStrip (lcode?.getD "")
      let input_name := pyStrip (nm?.getD "")
      if input_region_code == "" && input_local_code == "" && input_name == "" then
        (st, w, [.error "No region code, local code, or region name has been provided."])
      else
        match oracle with
        | some e =>
            (st, w, [.error ("Failed to search region due to an unexpected error - " ++ e)])
        | none =>
            let rows := w.db.regions.filter
              (regionMatches input_region_code input_local_code input_name)
            if rows.isEmpty then
              (st, w, [.error "No regions have been found."])
            else
              (st, w, rows.map (fun r => .regionSearchResult r))

/-- `Engine._handle_load_region`: same shape as the continent load. -/
def handle_load_region (st : EngineState) (w : World) (rid : Int)
    (oracle : Option String) : EngineState × World × List Event :=
  match st.connection with
  | none =>
      (st, w, [.error ("Failed to load region due to an unexpected error - " ++ attrCursorMsg)])
  | some _ =>
      match oracle with
      | some e =>
          (st, w, [.error ("Failed to load region due to an unexpected error - " ++ e)])
      | none =>
          match w.db.regions.find? (fun r => r.region_id == rid) with
          | some r => (st, w, [.regionLoaded r])
          | none => (st, w, [])

/-- The row the region insert statement binds: every field verbatim except
`keywords`, which goes through the falsy-to-null coercion (`wikipedia_link`
is bound verbatim here). -/
def regionInsertRow (r : Region) : Region :=
  { r with keywords := falsyToNone r.keywords }

/-- `Engine._handle_save_new_region`: `INSERT INTO region ...`, commit, yield
`RegionSavedEvent`; any exception becomes one `SaveRegionFailedEvent` and
leaves the store unchanged. -/
def handle_save_new_region (st : EngineState) (w : World) (r : Region)
    (oracle : Option String) : EngineState × World × List Event :=
  match st.connection with
  | none =>
      (st, w, [.saveRegionFailed ("Could not save new region because of an error - " ++ attrCursorMsg)])
  | some _ =>
      match oracle with
      | some e =>
          (st, w, [.saveRegionFailed ("Could not save new region because of an error - " ++ e)])
      | none =>
          if w.db.regions.any (fun x => x.region_id == r.region_id) then
            (st, w, [.saveRegionFailed ("Could not save new region because of an error - UNIQUE constraint failed: region.region_id")])
          else
            (st, { w with db := { w.db with regions := w.db.regions ++ [regionInsertRow r] } },
             [.regionSaved r])

/-- `Engine._handle_save_region`: `UPDATE region SET region_code = ?,
local_code = ?, name = ?, continent_id = ?, country_id = ?, wikipedia_link
= ?, keywords = ? WHERE region_id = ?` — here BOTH `wikipedia_link` and
`keywords` are bound through the falsy-to-null coercion — commit, and yield
`RegionSavedEvent` even when zero rows matched; any exception becomes one
`SaveRegionFailedEvent`. -/
def handle_save_region (st : EngineState) (w : World) (r : Region)
    (oracle : Option String) : EngineState × World × List Event :=
  match st.connection with
  | none =>
      (st, w, [.saveRegionFailed ("Could not update region because of an error - " ++ attrCursorMsg)])
  | some _ =>
      match oracle with
      | some e =>
          (st, w, [.saveRegionFailed ("Could not update region because of an error - " ++ e)])
      | none =>
          let upd := w.db.regions.map (fun x =>
            if x.region_id == r.region_id then
              { x with region_code := r.region_code,
                       local_code := r.local_code,
                       name := r.name,
                       continent_id := r.continent_id,
                       country_id := r.country_id,
                       wikipedia_link := falsyToNone r.wikipedia_link,
                       keywords := falsyToNone r.keywords }
            else x)
          (st, { w with db := { w.db with regions := upd } },
           [.regionSaved r])

/-- `Engine._handle_unrecognized`. -/
def handle_unrecognized (st : EngineState) (w : World) :
    EngineState × World × List Event :=
  (st, w, [.error "Received an unrecognized event."])

/-- A request event from the user interface, tagged with the oracle inputs
describing the environment behaviour while it is handled (`PathKind` for the
open request; for store-touching requests, `some msg` when the cursor raises
an unexpected exception with message `msg`, `none` when it does not). -/
inductive Request where
  | openDatabase (path : String) (k : PathKind)
  | closeDatabase
  | quitInitiated
  | startContinentSearch (code? nm? : Option String) (oracle : Option String)
  | loadContinent (cid : Int) (oracle : Option String)
  | saveNewContinent (c : Continent) (oracle : Option String)
  | saveContinent (c : Continent) (oracle : Option String)
  | startCountrySearch (code? nm? : Option String) (oracle : Option String)
  | loadCountry (cid : Int) (oracle : Option String)
  | saveNewCountry (c : Country) (oracle : Option String)
  | saveCountry (c : Country) (oracle : Option String)
  | startRegionSearch (rcode? lcode? nm? : Option String) (oracle : Option String)
  | loadRegion (rid : Int) (oracle : Option String)
  | saveNewRegion (r : Region) (oracle : Option String)
  | saveRegion (r : Region) (oracle : Option String)
  | unrecognized
deriving DecidableEq, Repr

/-- `Engine.process_event`: look the event type up in `self._handlers` and
yield everything the handler yields (`_handle_unrecognized` by default). -/
def process_event (st : EngineState) (w : World) (req : Request) :
    EngineState × World × List Event :=
  match req with
  | .openDatabase path k => handle_open_database st w path k
  | .closeDatabase => handle_close_database st w
  | .quitInitiated => handle_quit_application st w
  | .startContinentSearch code? nm? oracle => handle_search_continent st w code? nm? oracle
  | .loadContinent cid oracle => handle_load_continent st w cid oracle
  | .saveNewContinent c oracle => handle_save_new_continent st w c oracle
  | .saveContinent c oracle => handle_save_continent st w c oracle
  | .startCountrySearch code? nm? oracle => handle_search_country st w code? nm? oracle
  | .loadCountry cid oracle => handle_load_country st w cid oracle
  | .saveNewCountry c oracle => handle_save_new_country st w c oracle
  | .saveCountry c oracle => handle_save_country st w c oracle
  | .startRegionSearch rcode? lcode? nm? oracle => handle_search_region st w rcode? lcode? nm? oracle
  | .loadRegion rid oracle => handle_load_region st w rid oracle
  | .saveNewRegion r oracle => handle_save_new_region st w r oracle
  | .saveRegion r oracle => handle_save_region st w r oracle
  | .unrecognized => handle_unrecognized st w

/-- `p2app/events/event_bus.py`: the bus holds an optional view, an optional
engine, and a debug flag; `register_view`/`register_engine` assign the field
unconditionally. `V` and `E` are the (opaque) registered objects. -/
structure EventBus (V E : Type) where
  view : Option V
  engine : Option E
  isDebugMode : Bool
deriving DecidableEq, Repr

/-- `EventBus.__init__`. -/
def EventBus.new {V E : Type} : EventBus V E :=
  { view := none, engine := none, isDebugMode := false }

/-- `EventBus.register_view`: overwrites whatever view was registered. -/
def EventBus.register_view {V E : Type} (b : EventBus V E) (v : V) : EventBus V E :=
  { b with view := some v }

/-- `EventBus.register_engine`: overwrites whatever engine was registered. -/
def EventBus.register_engine {V E : Type} (b : EventBus V E) (e : E) : EventBus V E :=
  { b with engine := some e }

/-- `str` of the AttributeError raised by `None.process_event(event)` (quote
characters omitted). -/
def attrProcessEventMsg : String := "NoneType object has no attribute process_event"

/-- `str` of the AttributeError raised by `None.handle_event(event)` (quote
characters omitted). -/
def attrHandleEventMsg : String := "NoneType object has no attribute handle_event"

/-- `EventBus.initiate_event`: iterate the engine's response events, delivering
each to the view in order.  `proc` gives each registered engine object its
response sequence for the event.  The result is the list of events delivered
to the view, or the message of the uncaught exception: with no engine
registered, `self._engine.process_event(event)` raises AttributeError; with no
view registered the first delivery raises AttributeError (so an empty response
sequence still succeeds).  Debug mode only prints and alters nothing. -/
def EventBus.initiate_event {V E : Type} (b : EventBus V E)
    (proc : E → Request → List Event) (ev : Request) :
    Except String (List Event) :=
  match b.engine with
  | none => .error attrProcessEventMsg
  | some eng =>
      let results := proc eng ev
      match b.view with
      | some _ => .ok results
      | none => if results.isEmpty then .ok [] else .error attrHandleEventMsg

/-- A small concrete store used by witnesses: two continents sharing the code
AS, two countries, one region. -/
def dbSample : DB :=
  { continents := [⟨1, "AS", "Asia"⟩, ⟨2, "AS", "AsiaTwo"⟩, ⟨3, "EU", "Europe"⟩],
    countries := [⟨10, "JP", "Japan", 1, some "wiki/jp", some "nihon"⟩,
                  ⟨11, "FR", "France", 3, none, none⟩],
    regions := [⟨100, "JP-13", some "13", "Tokyo", 1, 10, none, none⟩] }

/-- A world with one live connection handle (0) over `dbSample`. -/
def wSample : World := ⟨[0], 1, dbSample⟩

/-! ## Theorems -/

/-- C1: every Open(path) request that fails yields exactly one
`DatabaseOpenFailedEvent`, whose message distinguishes an invalid SQLite
database (any `sqlite3.DatabaseError`) from any other error, and afterwards
the engine holds no live connection: the connection field is `none`, and the
handle opened during a failed validation attempt has been closed. -/
theorem open_failed_single_event_and_released (st : EngineState) (w : World)
    (path : String) (k : PathKind) (hk : k ≠ PathKind.ok) :
    (process_event st w (.openDatabase path k)).1.connection = none ∧
    (∃ m, (process_event st w (.openDatabase path k)).2.2 =
      [Event.databaseOpenFailed m]) ∧
    ((k = .notDb ∨ k = .connectFailDb) →
      (process_event st w (.openDatabase path k)).2.2 =
        [Event.databaseOpenFailed "The file is not a valid SQLite database."]) ∧
    (∀ e, k = .connectFailOther e →
      (process_event st w (.openDatabase path k)).2.2 =
        [Event.databaseOpenFailed ("An unexpected error occurred: " ++ e)]) ∧
    (k = .notDb → w.nextId ∉ (process_event st w (.openDatabase path k)).2.1.live) := by
  obtain ⟨c⟩ := st
  cases k with
  | ok => exact absurd rfl hk
  | notDb =>
      refine ⟨rfl, ⟨_, rfl⟩, fun _ => rfl, fun e2 he2 => ?_, fun _ => ?_⟩
      · exact nomatch he2
      · simp [process_event, handle_open_database, World.connect, World.closeConn,
          List.mem_filter]
  | connectFailDb =>
      cases c with
      | none =>
          refine ⟨rfl, ⟨_, rfl⟩, fun _ => rfl, fun e2 he2 => ?_, fun hne => ?_⟩
          · exact nomatch he2
          · exact nomatch hne
      | some a =>
          refine ⟨rfl, ⟨_, rfl⟩, fun _ => rfl, fun e2 he2 => ?_, fun hne => ?_⟩
          · exact nomatch he2
          · exact nomatch hne
  | connectFailOther e =>
      cases c with
      | none =>
          refine ⟨rfl, ⟨_, rfl⟩, fun hdb => ?_, fun e2 he2 => ?_, fun hne => ?_⟩
          · rcases hdb with h | h
            · exact nomatch h
            · exact nomatch h
          · cases he2
            rfl
          · exact nomatch hne
      | some a =>
          refine ⟨rfl, ⟨_, rfl⟩, fun hdb => ?_, fun e2 he2 => ?_, fun hne => ?_⟩
          · rcases hdb with h | h
            · exact nomatch h
            · exact nomatch h
          · cases he2
            rfl
          · exact nomatch hne

/-- Witness for C1 at a concrete failed open: a one-row world, an invalid
file, connection previously absent. -/
theorem open_failed_single_event_and_released_witness :
    (process_event ⟨none⟩ ⟨[], 0, ⟨[], [], []⟩⟩
        (.openDatabase "notes.txt" .notDb)).1.connection = none ∧
    (∃ m, (process_event ⟨none⟩ ⟨[], 0, ⟨[], [], []⟩⟩
        (.openDatabase "notes.txt" .notDb)).2.2 = [Event.databaseOpenFailed m]) ∧
    ((PathKind.notDb = .notDb ∨ PathKind.notDb = .connectFailDb) →
      (process_event ⟨none⟩ ⟨[], 0, ⟨[], [], []⟩⟩
          (.openDatabase "notes.txt" .notDb)).2.2 =
        [Event.databaseOpenFailed "The file is not a valid SQLite database."]) ∧
    (∀ e, PathKind.notDb = .connectFailOther e →
      (process_event ⟨none⟩ ⟨[], 0, ⟨[], [], []⟩⟩
          (.openDatabase "notes.txt" .notDb)).2.2 =
        [Event.databaseOpenFailed ("An unexpected error occurred: " ++ e)]) ∧
    (PathKind.notDb = .notDb →
      (0 : Nat) ∉ (process_event ⟨none⟩ ⟨[], 0, ⟨[], [], []⟩⟩
          (.openDatabase "notes.txt" .notDb)).2.1.live) :=
  open_failed_single_event_and_released ⟨none⟩ ⟨[], 0, ⟨[], [], []⟩⟩
    "notes.txt" .notDb (by decide)

/-- C4 counterexample: an Open request arriving while connection handle 0 is
held does NOT close handle 0 — after a successful re-open, handle 0 is still
live while the engine points at the fresh handle 1, so two connections are
simultaneously live. -/
theorem reopen_keeps_prior_connection_live_cex :
    (process_event ⟨some 0⟩ ⟨[0], 1, ⟨[], [], []⟩⟩
        (.openDatabase "world.db" .ok)).1.connection = some 1 ∧
    (0 : Nat) ∈ (process_event ⟨some 0⟩ ⟨[0], 1, ⟨[], [], []⟩⟩
        (.openDatabase "world.db" .ok)).2.1.live ∧
    (1 : Nat) ∈ (process_event ⟨some 0⟩ ⟨[0], 1, ⟨[], [], []⟩⟩
        (.openDatabase "world.db" .ok)).2.1.live ∧
    (process_event ⟨some 0⟩ ⟨[0], 1, ⟨[], [], []⟩⟩
        (.openDatabase "world.db" .ok)).2.2 = [Event.databaseOpened "world.db"] := by
  refine ⟨rfl, ?_, ?_, rfl⟩ <;> decide

/-- C4 amended: on re-open the engine only overwrites its connection field and
never closes the prior connection when the new `sqlite3.connect` succeeds —
the prior handle stays live (leaked) both on success and on validation
failure; the prior connection is closed only when `sqlite3.connect` itself
raises, because then the cleanup still sees it in the field. -/
theorem reopen_overwrites_without_closing (w : World) (c : Nat) (path : String)
    (hc : c ∈ w.live) (hlt : c < w.nextId) :
    ((process_event ⟨some c⟩ w (.openDatabase path .ok)).1.connection = some w.nextId ∧
      c ∈ (process_event ⟨some c⟩ w (.openDatabase path .ok)).2.1.live) ∧
    ((process_event ⟨some c⟩ w (.openDatabase path .notDb)).1.connection = none ∧
      c ∈ (process_event ⟨some c⟩ w (.openDatabase path .notDb)).2.1.live) ∧
    ((process_event ⟨some c⟩ w (.openDatabase path .connectFailDb)).1.connection = none ∧
      c ∉ (process_event ⟨some c⟩ w (.openDatabase path .connectFailDb)).2.1.live) ∧
    (∀ e, (process_event ⟨some c⟩ w (.openDatabase path (.connectFailOther e))).1.connection = none ∧
      c ∉ (process_event ⟨some c⟩ w (.openDatabase path (.connectFailOther e))).2.1.live) := by
  refine ⟨⟨rfl, ?_⟩, ⟨rfl, ?_⟩, ⟨rfl, ?_⟩, fun e => ⟨rfl, ?_⟩⟩ <;>
    simp [process_event, handle_open_database, World.connect, World.closeConn,
      List.mem_filter, hc]
  · omega

/-- Witness for C4 amended at handle 0 live in a one-connection world. -/
theorem reopen_overwrites_without_closing_witness :
    ((process_event ⟨some 0⟩ ⟨[0], 1, ⟨[], [], []⟩⟩
        (.openDatabase "w.db" .ok)).1.connection = some (1 : Nat) ∧
      (0 : Nat) ∈ (process_event ⟨some 0⟩ ⟨[0], 1, ⟨[], [], []⟩⟩
        (.openDatabase "w.db" .ok)).2.1.live) ∧
    ((process_event ⟨some 0⟩ ⟨[0], 1, ⟨[], [], []⟩⟩
        (.openDatabase "w.db" .notDb)).1.connection = none ∧
      (0 : Nat) ∈ (process_event ⟨some 0⟩ ⟨[0], 1, ⟨[], [], []⟩⟩
        (.openDatabase "w.db" .notDb)).2.1.live) ∧
    ((process_event ⟨some 0⟩ ⟨[0], 1, ⟨[], [], []⟩⟩
        (.openDatabase "w.db" .connectFailDb)).1.connection = none ∧
      (0 : Nat) ∉ (process_event ⟨some 0⟩ ⟨[0], 1, ⟨[], [], []⟩⟩
        (.openDatabase "w.db" .connectFailDb)).2.1.live) ∧
    (∀ e, (process_event ⟨some 0⟩ ⟨[0], 1, ⟨[], [], []⟩⟩
        (.openDatabase "w.db" (.connectFailOther e))).1.connection = none ∧
      (0 : Nat) ∉ (process_event ⟨some 0⟩ ⟨[0], 1, ⟨[], [], []⟩⟩
        (.openDatabase "w.db" (.connectFailOther e))).2.1.live) :=
  reopen_overwrites_without_closing ⟨[0], 1, ⟨[], [], []⟩⟩ 0 "w.db"
    (by decide) (by decide)

/-- C2 counterexample: with no connection held, a load request is NOT a
benign no-op — the AttributeError from `None.cursor()` is caught and turned
into a generic `ErrorEvent`, so the engine responds with one error event
(and a save request likewise yields a save-failure event) instead of staying
silent. -/
theorem no_connection_load_yields_error_cex :
    (process_event ⟨none⟩ ⟨[], 0, ⟨[], [], []⟩⟩ (.loadContinent 1 none)).2.2 =
      [Event.error ("Failed to load continent due to an unexpected error - " ++ attrCursorMsg)] ∧
    (process_event ⟨none⟩ ⟨[], 0, ⟨[], [], []⟩⟩ (.loadContinent 1 none)).2.2 ≠ [] ∧
    (process_event ⟨none⟩ ⟨[], 0, ⟨[], [], []⟩⟩
        (.saveNewContinent ⟨7, "AS", "Asia"⟩ none)).2.2 =
      [Event.saveContinentFailed ("Could not save new continent because of an error - " ++ attrCursorMsg)] := by
  refine ⟨rfl, ?_, rfl⟩
  decide

/-- C2 amended: with no connection held, only the three search handlers are
silent no-ops; the load handlers yield exactly one generic `ErrorEvent` and
the save handlers exactly one entity-specific save-failure event (the
AttributeError is caught at the handler boundary, so no handler escalates the
absent connection into an uncaught fault), and no handler touches the store
or the connection state. -/
theorem no_connection_handler_responses (w : World) :
    (∀ c? n? oe, process_event ⟨none⟩ w (.startContinentSearch c? n? oe) = (⟨none⟩, w, [])) ∧
    (∀ c? n? oe, process_event ⟨none⟩ w (.startCountrySearch c? n? oe) = (⟨none⟩, w, [])) ∧
    (∀ r? l? n? oe, process_event ⟨none⟩ w (.startRegionSearch r? l? n? oe) = (⟨none⟩, w, [])) ∧
    (∀ cid oe, process_event ⟨none⟩ w (.loadContinent cid oe) =
      (⟨none⟩, w, [.error ("Failed to load continent due to an unexpected error - " ++ attrCursorMsg)])) ∧
    (∀ cid oe, process_event ⟨none⟩ w (.loadCountry cid oe) =
      (⟨none⟩, w, [.error ("Failed to load country due to an unexpected error - " ++ attrCursorMsg)])) ∧
    (∀ rid oe, process_event ⟨none⟩ w (.loadRegion rid oe) =
      (⟨none⟩, w, [.error ("Failed to load region due to an unexpected error - " ++ attrCursorMsg)])) ∧
    (∀ c oe, process_event ⟨none⟩ w (.saveNewContinent c oe) =
      (⟨none⟩, w, [.saveContinentFailed ("Could not save new continent because of an error - " ++ attrCursorMsg)])) ∧
    (∀ c oe, process_event ⟨none⟩ w (.saveContinent c oe) =
      (⟨none⟩, w, [.saveContinentFailed ("Could not update continent because of an error - " ++ attrCursorMsg)])) ∧
    (∀ c oe, process_event ⟨none⟩ w (.saveNewCountry c oe) =
      (⟨none⟩, w, [.saveCountryFailed ("Could not save new country because of an error - " ++ attrCursorMsg)])) ∧
    (∀ c oe, process_event ⟨none⟩ w (.saveCountry c oe) =
      (⟨none⟩, w, [.saveCountryFailed ("Could not update country because of an error - " ++ attrCursorMsg)])) ∧
    (∀ r oe, process_event ⟨none⟩ w (.saveNewRegion r oe) =
      (⟨none⟩, w, [.saveRegionFailed ("Could not save new region because of an error - " ++ attrCursorMsg)])) ∧
    (∀ r oe, process_event ⟨none⟩ w (.saveRegion r oe) =
      (⟨none⟩, w, [.saveRegionFailed ("Could not update region because of an error - " ++ attrCursorMsg)])) := by
  refine ⟨?_, ?_, ?_, ?_, ?_, ?_, ?_, ?_, ?_, ?_, ?_, ?_⟩ <;> intros <;> rfl

/-- C3 counterexample: an update whose id matches no existing row still yields
`ContinentSavedEvent` — on an empty store, saving continent id 7 commits a
zero-row UPDATE and confirms, while the resulting store still has no row with
id 7. -/
theorem update_confirms_without_persisted_row_cex :
    (process_event ⟨some 0⟩ ⟨[0], 1, ⟨[], [], []⟩⟩
        (.saveContinent ⟨7, "AS", "Asia"⟩ none)).2.2 =
      [Event.continentSaved ⟨7, "AS", "Asia"⟩] ∧
    (process_event ⟨some 0⟩ ⟨[0], 1, ⟨[], [], []⟩⟩
        (.saveContinent ⟨7, "AS", "Asia"⟩ none)).2.1.db.continents = [] := by
  exact ⟨rfl, rfl⟩

/-- C3 amended: a save-new confirmation does imply a persisted row with the
record's id (the INSERT succeeded), but a save-update emits its confirmation
whenever the UPDATE statement executes without error, even when zero rows
matched the record's id — the engine never inspects the affected row count. -/
theorem saved_confirmation_semantics (st : EngineState) (w : World) :
    (∀ c oe, Event.continentSaved c ∈ (process_event st w (.saveNewContinent c oe)).2.2 →
      ∃ r ∈ (process_event st w (.saveNewContinent c oe)).2.1.db.continents,
        r.continent_id = c.continent_id) ∧
    (∀ c oe, Event.countrySaved c ∈ (process_event st w (.saveNewCountry c oe)).2.2 →
      ∃ r ∈ (process_event st w (.saveNewCountry c oe)).2.1.db.countries,
        r.country_id = c.country_id) ∧
    (∀ r oe, Event.regionSaved r ∈ (process_event st w (.saveNewRegion r oe)).2.2 →
      ∃ x ∈ (process_event st w (.saveNewRegion r oe)).2.1.db.regions,
        x.region_id = r.region_id) ∧
    (∀ c h, st.connection = some h →
      (process_event st w (.saveContinent c none)).2.2 = [Event.continentSaved c]) ∧
    (∀ c h, st.connection = some h →
      (process_event st w (.saveCountry c none)).2.2 = [Event.countrySaved c]) ∧
    (∀ r h, st.connection = some h →
      (process_event st w (.saveRegion r none)).2.2 = [Event.regionSaved r]) := by
  obtain ⟨conn⟩ := st
  refine ⟨?_, ?_, ?_, ?_, ?_, ?_⟩
  · intro c oe hmem
    cases conn with
    | none => simp [process_event, handle_save_new_continent] at hmem
    | some h =>
        cases oe with
        | some e => simp [process_event, handle_save_new_continent] at hmem
        | none =>
            by_cases hdup : w.db.continents.any (fun r => r.continent_id == c.continent_id)
            · simp [process_event, handle_save_new_continent, hdup] at hmem
            · refine ⟨c, ?_, rfl⟩
              simp [process_event, handle_save_new_continent, hdup]
  · intro c oe hmem
    cases conn with
    | none => simp [process_event, handle_save_new_country] at hmem
    | some h =>
        cases oe with
        | some e => simp [process_event, handle_save_new_country] at hmem
        | none =>
            by_cases hdup : w.db.countries.any (fun r => r.country_id == c.country_id)
            · simp [process_event, handle_save_new_country, hdup] at hmem
            · refine ⟨countryInsertRow c, ?_, rfl⟩
              simp [process_event, handle_save_new_country, hdup]
  · intro r oe hmem
    cases conn with
    | none => simp [process_event, handle_save_new_region] at hmem
    | some h =>
        cases oe with
        | some e => simp [process_event, handle_save_new_region] at hmem
        | none =>
            by_cases hdup : w.db.regions.any (fun x => x.region_id == r.region_id)
            · simp [process_event, handle_save_new_region, hdup] at hmem
            · refine ⟨regionInsertRow r, ?_, rfl⟩
              simp [process_event, handle_save_new_region, hdup]
  · intro c h hst
    cases hst
    rfl
  · intro c h hst
    cases hst
    rfl
  · intro r h hst
    cases hst
    rfl

/-- Witness for C3 amended: inserting continent 7 into an empty store yields a
persisted row with id 7, extracted by applying the theorem at that input. -/
theorem saved_confirmation_semantics_witness :
    ∃ r ∈ (process_event ⟨some 0⟩ ⟨[0], 1, ⟨[], [], []⟩⟩
        (.saveNewContinent ⟨7, "AS", "Asia"⟩ none)).2.1.db.continents,
      r.continent_id = (Continent.mk 7 "AS" "Asia").continent_id :=
  (saved_confirmation_semantics ⟨some 0⟩ ⟨[0], 1, ⟨[], [], []⟩⟩).1
    ⟨7, "AS", "Asia"⟩ none (by decide)

/-- C5: with a connection open and at least one criterion non-blank after
trimming, a search filters only by the supplied non-blank fields combined
conjunctively (the match predicates are exactly "each supplied field must be
equal"), yields one SearchResult per matching row in store order and zero
error events when at least one row matches, and exactly one error event when
zero rows match — for all three entities. -/
theorem search_conjunctive_results_or_error (w : World) (h : Nat) :
    (∀ ic nm c, continentMatches ic nm c = true ↔
      ((ic ≠ "" → c.continent_code = ic) ∧ (nm ≠ "" → c.name = nm))) ∧
    (∀ ic nm c, countryMatches ic nm c = true ↔
      ((ic ≠ "" → c.country_code = ic) ∧ (nm ≠ "" → c.name = nm))) ∧
    (∀ rc lc nm r, regionMatches rc lc nm r = true ↔
      ((rc ≠ "" → r.region_code = rc) ∧ (lc ≠ "" → r.local_code = some lc) ∧
        (nm ≠ "" → r.name = nm))) ∧
    (∀ c? n?, ¬(pyStrip (c?.getD "") = "" ∧ pyStrip (n?.getD "") = "") →
      (w.db.continents.filter (continentMatches (pyStrip (c?.getD "")) (pyStrip (n?.getD ""))) ≠ [] →
        (process_event ⟨some h⟩ w (.startContinentSearch c? n? none)).2.2 =
          (w.db.continents.filter
            (continentMatches (pyStrip (c?.getD "")) (pyStrip (n?.getD "")))).map
              Event.continentSearchResult ∧
        (∀ m, Event.error m ∉ (process_event ⟨some h⟩ w (.startContinentSearch c? n? none)).2.2)) ∧
      (w.db.continents.filter (continentMatches (pyStrip (c?.getD "")) (pyStrip (n?.getD ""))) = [] →
        (process_event ⟨some h⟩ w (.startContinentSearch c? n? none)).2.2 =
          [Event.error "No continents have been found."])) ∧
    (∀ c? n?, ¬(pyStrip (c?.getD "") = "" ∧ pyStrip (n?.getD "") = "") →
      (w.db.countries.filter (countryMatches (pyStrip (c?.getD "")) (pyStrip (n?.getD ""))) ≠ [] →
        (process_event ⟨some h⟩ w (.startCountrySearch c? n? none)).2.2 =
          (w.db.countries.filter
            (countryMatches (pyStrip (c?.getD "")) (pyStrip (n?.getD "")))).map
              Event.countrySearchResult ∧
        (∀ m, Event.error m ∉ (process_event ⟨some h⟩ w (.startCountrySearch c? n? none)).2.2)) ∧
      (w.db.countries.filter (countryMatches (pyStrip (c?.getD "")) (pyStrip (n?.getD ""))) = [] →
        (process_event ⟨some h⟩ w (.startCountrySearch c? n? none)).2.2 =
          [Event.error "No countries have been found."])) ∧
    (∀ r? l? n?, ¬(pyStrip (r?.getD "") = "" ∧ pyStrip (l?.getD "") = "" ∧ pyStrip (n?.getD "") = "") →
      (w.db.regions.filter
          (regionMatches (pyStrip (r?.getD "")) (pyStrip (l?.getD "")) (pyStrip (n?.getD ""))) ≠ [] →
        (process_event ⟨some h⟩ w (.startRegionSearch r? l? n? none)).2.2 =
          (w.db.regions.filter
            (regionMatches (pyStrip (r?.getD "")) (pyStrip (l?.getD "")) (pyStrip (n?.getD "")))).map
              Event.regionSearchResult ∧
        (∀ m, Event.error m ∉ (process_event ⟨some h⟩ w (.startRegionSearch r? l? n? none)).2.2)) ∧
      (w.db.regions.filter
          (regionMatches (pyStrip (r?.getD "")) (pyStrip (l?.getD "")) (pyStrip (n?.getD ""))) = [] →
        (process_event ⟨some h⟩ w (.startRegionSearch r? l? n? none)).2.2 =
          [Event.error "No regions have been found."])) := by
  refine ⟨?_, ?_, ?_, ?_, ?_, ?_⟩
  · intro ic nm c
    by_cases h1 : ic = "" <;> by_cases h2 : nm = "" <;>
      simp [continentMatches, h1, h2, beq_iff_eq] <;> tauto
  · intro ic nm c
    by_cases h1 : ic = "" <;> by_cases h2 : nm = "" <;>
      simp [countryMatches, h1, h2, beq_iff_eq] <;> tauto
  · intro rc lc nm r
    by_cases h1 : rc = "" <;> by_cases h2 : lc = "" <;> by_cases h3 : nm = "" <;>
      simp [regionMatches, h1, h2, h3, beq_iff_eq] <;> tauto
  · intro c? n? hnb
    have hcond : ((pyStrip (c?.getD "") == "") && (pyStrip (n?.getD "") == "")) = false := by
      by_cases h1 : pyStrip (c?.getD "") = "" <;> by_cases h2 : pyStrip (n?.getD "") = "" <;>
        simp [h1, h2] <;> tauto
    constructor
    · intro hne
      have hemp : (w.db.continents.filter
          (continentMatches (pyStrip (c?.getD "")) (pyStrip (n?.getD "")))).isEmpty = false := by
        simpa [List.isEmpty_iff] using hne
      constructor
      · simp [process_event, handle_search_continent, hcond, hemp]
      · intro m
        simp [process_event, handle_search_continent, hcond, hemp]
    · intro hemp0
      have hemp : (w.db.continents.filter
          (continentMatches (pyStrip (c?.getD "")) (pyStrip (n?.getD "")))).isEmpty = true := by
        simp [List.isEmpty_iff, hemp0]
      simp [process_event, handle_search_continent, hcond, hemp]
  · intro c? n? hnb
    have hcond : ((pyStrip (c?.getD "") == "") && (pyStrip (n?.getD "") == "")) = false := by
      by_cases h1 : pyStrip (c?.getD "") = "" <;> by_cases h2 : pyStrip (n?.getD "") = "" <;>
        simp [h1, h2] <;> tauto
    constructor
    · intro hne
      have hemp : (w.db.countries.filter
          (countryMatches (pyStrip (c?.getD "")) (pyStrip (n?.getD "")))).isEmpty = false := by
        simpa [List.isEmpty_iff] using hne
      constructor
      · simp [process_event, handle_search_country, hcond, hemp]
      · intro m
        simp [process_event, handle_search_country, hcond, hemp]
    · intro hemp0
      have hemp : (w.db.countries.filter
          (countryMatches (pyStrip (c?.getD "")) (pyStrip (n?.getD "")))).isEmpty = true := by
        simp [List.isEmpty_iff, hemp0]
      simp [process_event, handle_search_country, hcond, hemp]
  · intro r? l? n? hnb
    have hcond : ¬((pyStrip (r?.getD "") = "" ∧ pyStrip (l?.getD "") = "") ∧
        pyStrip (n?.getD "") = "") := by
      intro hx
      exact hnb ⟨hx.1.1, hx.1.2, hx.2⟩
    constructor
    · intro hne
      have hemp : (w.db.regions.filter
          (regionMatches (pyStrip (r?.getD "")) (pyStrip (l?.getD "")) (pyStrip (n?.getD "")))).isEmpty = false := by
        simpa [List.isEmpty_iff] using hne
      constructor
      · simp [process_event, handle_search_region, hcond, hemp]
      · intro m
        simp [process_event, handle_search_region, hcond, hemp]
    · intro hemp0
      have hemp : (w.db.regions.filter
          (regionMatches (pyStrip (r?.getD "")) (pyStrip (l?.getD "")) (pyStrip (n?.getD "")))).isEmpty = true := by
        simp [List.isEmpty_iff, hemp0]
      simp [process_event, handle_search_region, hcond, hemp]

/-- Witness for C5: searching `dbSample` continents by code AS (two rows share
that code) yields exactly the two SearchResult events, in store order. -/
theorem search_conjunctive_results_or_error_witness :
    (process_event ⟨some 0⟩ wSample (.startContinentSearch (some "AS") none none)).2.2 =
      [Event.continentSearchResult ⟨1, "AS", "Asia"⟩,
       Event.continentSearchResult ⟨2, "AS", "AsiaTwo"⟩] := by
  have happ := ((search_conjunctive_results_or_error wSample 0).2.2.2.1
    (some "AS") none (by decide)).1 (by decide)
  exact happ.1.trans (by decide)

/-- C6: with a connection open and every criterion blank after trimming, a
search yields exactly one validation-error event, leaves the engine state and
the world untouched, and issues no query against the store — the response is
identical over any other store content `w2` (and any oracle outcome, since the
cursor is never reached). -/
theorem blank_search_error_no_query (w w2 : World) (h : Nat) :
    (∀ c? n? oe, pyStrip (c?.getD "") = "" → pyStrip (n?.getD "") = "" →
      process_event ⟨some h⟩ w (.startContinentSearch c? n? oe) =
        (⟨some h⟩, w, [.error "No continent code or continent name has been provided."]) ∧
      (process_event ⟨some h⟩ w (.startContinentSearch c? n? oe)).2.2 =
        (process_event ⟨some h⟩ w2 (.startContinentSearch c? n? oe)).2.2) ∧
    (∀ c? n? oe, pyStrip (c?.getD "") = "" → pyStrip (n?.getD "") = "" →
      process_event ⟨some h⟩ w (.startCountrySearch c? n? oe) =
        (⟨some h⟩, w, [.error "No country code or country name has been provided."]) ∧
      (process_event ⟨some h⟩ w (.startCountrySearch c? n? oe)).2.2 =
        (process_event ⟨some h⟩ w2 (.startCountrySearch c? n? oe)).2.2) ∧
    (∀ r? l? n? oe, pyStrip (r?.getD "") = "" → pyStrip (l?.getD "") = "" →
      pyStrip (n?.getD "") = "" →
      process_event ⟨some h⟩ w (.startRegionSearch r? l? n? oe) =
        (⟨some h⟩, w, [.error "No region code, local code, or region name has been provided."]) ∧
      (process_event ⟨some h⟩ w (.startRegionSearch r? l? n? oe)).2.2 =
        (process_event ⟨some h⟩ w2 (.startRegionSearch r? l? n? oe)).2.2) := by
  refine ⟨?_, ?_, ?_⟩
  · intro c? n? oe h1 h2
    constructor <;> simp [process_event, handle_search_continent, h1, h2]
  · intro c? n? oe h1 h2
    constructor <;> simp [process_event, handle_search_country, h1, h2]
  · intro r? l? n? oe h1 h2 h3
    constructor <;> simp [process_event, handle_search_region, h1, h2, h3]

/-- Witness for C6 at whitespace-only criteria over `dbSample`. -/
theorem blank_search_error_no_query_witness :
    process_event ⟨some 0⟩ wSample (.startContinentSearch (some "  ") none none) =
      (⟨some 0⟩, wSample,
       [Event.error "No continent code or continent name has been provided."]) ∧
    (process_event ⟨some 0⟩ wSample (.startContinentSearch (some "  ") none none)).2.2 =
      (process_event ⟨some 0⟩ ⟨[0], 1, ⟨[], [], []⟩⟩
        (.startContinentSearch (some "  ") none none)).2.2 :=
  (blank_search_error_no_query wSample ⟨[0], 1, ⟨[], [], []⟩⟩ 0).1
    (some "  ") none none (by decide) (by decide)

/-- C7: with a connection open, a load fetches at most one row by id: it
yields exactly one Loaded event carrying the row with the given id when one
exists, yields no response event at all when none exists, never yields an
error without an unexpected failure, and yields exactly one generic error
event when the cursor raises unexpectedly — for all three entities. -/
theorem load_at_most_one_row (w : World) (h : Nat) :
    (∀ cid,
      (∀ c, w.db.continents.find? (fun x => x.continent_id == cid) = some c →
        process_event ⟨some h⟩ w (.loadContinent cid none) = (⟨some h⟩, w, [.continentLoaded c])) ∧
      (w.db.continents.find? (fun x => x.continent_id == cid) = none →
        process_event ⟨some h⟩ w (.loadContinent cid none) = (⟨some h⟩, w, [])) ∧
      (process_event ⟨some h⟩ w (.loadContinent cid none)).2.2.length ≤ 1 ∧
      (∀ m, Event.error m ∉ (process_event ⟨some h⟩ w (.loadContinent cid none)).2.2) ∧
      (∀ e, process_event ⟨some h⟩ w (.loadContinent cid (some e)) =
        (⟨some h⟩, w, [.error ("Failed to load continent due to an unexpected error - " ++ e)]))) ∧
    (∀ cid,
      (∀ c, w.db.countries.find? (fun x => x.country_id == cid) = some c →
        process_event ⟨some h⟩ w (.loadCountry cid none) = (⟨some h⟩, w, [.countryLoaded c])) ∧
      (w.db.countries.find? (fun x => x.country_id == cid) = none →
        process_event ⟨some h⟩ w (.loadCountry cid none) = (⟨some h⟩, w, [])) ∧
      (process_event ⟨some h⟩ w (.loadCountry cid none)).2.2.length ≤ 1 ∧
      (∀ m, Event.error m ∉ (process_event ⟨some h⟩ w (.loadCountry cid none)).2.2) ∧
      (∀ e, process_event ⟨some h⟩ w (.loadCountry cid (some e)) =
        (⟨some h⟩, w, [.error ("Failed to load country due to an unexpected error - " ++ e)]))) ∧
    (∀ rid,
      (∀ r, w.db.regions.find? (fun x => x.region_id == rid) = some r →
        process_event ⟨some h⟩ w (.loadRegion rid none) = (⟨some h⟩, w, [.regionLoaded r])) ∧
      (w.db.regions.find? (fun x => x.region_id == rid) = none →
        process_event ⟨some h⟩ w (.loadRegion rid none) = (⟨some h⟩, w, [])) ∧
      (process_event ⟨some h⟩ w (.loadRegion rid none)).2.2.length ≤ 1 ∧
      (∀ m, Event.error m ∉ (process_event ⟨some h⟩ w (.loadRegion rid none)).2.2) ∧
      (∀ e, process_event ⟨some h⟩ w (.loadRegion rid (some e)) =
        (⟨some h⟩, w, [.error ("Failed to load region due to an unexpected error - " ++ e)]))) := by
  refine ⟨?_, ?_, ?_⟩
  · intro cid
    refine ⟨?_, ?_, ?_, ?_, ?_⟩
    · intro c hf
      simp [process_event, handle_load_continent, hf]
    · intro hf
      simp [process_event, handle_load_continent, hf]
    · rcases hf : w.db.continents.find? (fun x => x.continent_id == cid) with _ | c <;>
        simp [process_event, handle_load_continent, hf]
    · intro m
      rcases hf : w.db.continents.find? (fun x => x.continent_id == cid) with _ | c <;>
        simp [process_event, handle_load_continent, hf]
    · intro e
      simp [process_event, handle_load_continent]
  · intro cid
    refine ⟨?_, ?_, ?_, ?_, ?_⟩
    · intro c hf
      simp [process_event, handle_load_country, hf]
    · intro hf
      simp [process_event, handle_load_country, hf]
    · rcases hf : w.db.countries.find? (fun x => x.country_id == cid) with _ | c <;>
        simp [process_event, handle_load_country, hf]
    · intro m
      rcases hf : w.db.countries.find? (fun x => x.country_id == cid) with _ | c <;>
        simp [process_event, handle_load_country, hf]
    · intro e
      simp [process_event, handle_load_country]
  · intro rid
    refine ⟨?_, ?_, ?_, ?_, ?_⟩
    · intro r hf
      simp [process_event, handle_load_region, hf]
    · intro hf
      simp [process_event, handle_load_region, hf]
    · rcases hf : w.db.regions.find? (fun x => x.region_id == rid) with _ | r <;>
        simp [process_event, handle_load_region, hf]
    · intro m
      rcases hf : w.db.regions.find? (fun x => x.region_id == rid) with _ | r <;>
        simp [process_event, handle_load_region, hf]
    · intro e
      simp [process_event, handle_load_region]

/-- Witness for C7: loading continent 2 from `dbSample` yields exactly its
Loaded event. -/
theorem load_at_most_one_row_witness :
    process_event ⟨some 0⟩ wSample (.loadContinent 2 none) =
      (⟨some 0⟩, wSample, [Event.continentLoaded ⟨2, "AS", "AsiaTwo"⟩]) :=
  ((load_at_most_one_row wSample 0).1 2).1 ⟨2, "AS", "AsiaTwo"⟩ (by decide)

/-- C8: every save-new or save-update whose statement fails — an unexpected
store-level failure (oracle) or a UNIQUE-constraint violation on insert —
yields exactly one entity-specific save-failure event carrying the underlying
message, and leaves the engine state and the whole world (store included)
unchanged: no partial write is committed. -/
theorem mutation_failure_leaves_store_unchanged (w : World) (h : Nat) :
    (∀ c e, process_event ⟨some h⟩ w (.saveNewContinent c (some e)) =
      (⟨some h⟩, w, [.saveContinentFailed ("Could not save new continent because of an error - " ++ e)])) ∧
    (∀ c e, process_event ⟨some h⟩ w (.saveContinent c (some e)) =
      (⟨some h⟩, w, [.saveContinentFailed ("Could not update continent because of an error - " ++ e)])) ∧
    (∀ c e, process_event ⟨some h⟩ w (.saveNewCountry c (some e)) =
      (⟨some h⟩, w, [.saveCountryFailed ("Could not save new country because of an error - " ++ e)])) ∧
    (∀ c e, process_event ⟨some h⟩ w (.saveCountry c (some e)) =
      (⟨some h⟩, w, [.saveCountryFailed ("Could not update country because of an error - " ++ e)])) ∧
    (∀ r e, process_event ⟨some h⟩ w (.saveNewRegion r (some e)) =
      (⟨some h⟩, w, [.saveRegionFailed ("Could not save new region because of an error - " ++ e)])) ∧
    (∀ r e, process_event ⟨some h⟩ w (.saveRegion r (some e)) =
      (⟨some h⟩, w, [.saveRegionFailed ("Could not update region because of an error - " ++ e)])) ∧
    (∀ c, w.db.continents.any (fun x => x.continent_id == c.continent_id) = true →
      process_event ⟨some h⟩ w (.saveNewContinent c none) =
        (⟨some h⟩, w, [.saveContinentFailed "Could not save new continent because of an error - UNIQUE constraint failed: continent.continent_id"])) ∧
    (∀ c, w.db.countries.any (fun x => x.country_id == c.country_id) = true →
      process_event ⟨some h⟩ w (.saveNewCountry c none) =
        (⟨some h⟩, w, [.saveCountryFailed "Could not save new country because of an error - UNIQUE constraint failed: country.country_id"])) ∧
    (∀ r, w.db.regions.any (fun x => x.region_id == r.region_id) = true →
      process_event ⟨some h⟩ w (.saveNewRegion r none) =
        (⟨some h⟩, w, [.saveRegionFailed "Could not save new region because of an error - UNIQUE constraint failed: region.region_id"])) := by
  refine ⟨fun c e => rfl, fun c e => rfl, fun c e => rfl, fun c e => rfl,
    fun r e => rfl, fun r e => rfl, ?_, ?_, ?_⟩
  · intro c hdup
    simp [process_event, handle_save_new_continent, hdup]
  · intro c hdup
    simp [process_event, handle_save_new_country, hdup]
  · intro r hdup
    simp [process_event, handle_save_new_region, hdup]

/-- Witness for C8: inserting a continent with the already-used id 1 into
`dbSample` fails with the constraint message and leaves the world unchanged. -/
theorem mutation_failure_leaves_store_unchanged_witness :
    process_event ⟨some 0⟩ wSample (.saveNewContinent ⟨1, "XX", "Duplicate"⟩ none) =
      (⟨some 0⟩, wSample,
       [Event.saveContinentFailed "Could not save new continent because of an error - UNIQUE constraint failed: continent.continent_id"]) :=
  (mutation_failure_leaves_store_unchanged wSample 0).2.2.2.2.2.2.1
    ⟨1, "XX", "Duplicate"⟩ (by decide)

/-- C10: a falsy `keywords` value (None or the empty string) is bound as null
by all four country/region save handlers — the stored row always carries
`falsyToNone keywords` — while `wikipedia_link` receives the same coercion
only in the region save-update handler and is bound verbatim by the country
insert/update and the region insert. -/
theorem falsy_keywords_bound_as_null (w : World) (h : Nat) :
    (falsyToNone none = none ∧ falsyToNone (some "") = none ∧
      ∀ s, s ≠ "" → falsyToNone (some s) = some s) ∧
    (∀ c : Country, (countryInsertRow c).keywords = falsyToNone c.keywords ∧
      (countryInsertRow c).wikipedia_link = c.wikipedia_link) ∧
    (∀ r : Region, (regionInsertRow r).keywords = falsyToNone r.keywords ∧
      (regionInsertRow r).wikipedia_link = r.wikipedia_link) ∧
    (∀ c, w.db.countries.any (fun x => x.country_id == c.country_id) = false →
      (process_event ⟨some h⟩ w (.saveNewCountry c none)).2.1.db.countries =
        w.db.countries ++ [countryInsertRow c]) ∧
    (∀ r, w.db.regions.any (fun x => x.region_id == r.region_id) = false →
      (process_event ⟨some h⟩ w (.saveNewRegion r none)).2.1.db.regions =
        w.db.regions ++ [regionInsertRow r]) ∧
    (∀ c x, x ∈ (process_event ⟨some h⟩ w (.saveCountry c none)).2.1.db.countries →
      x.country_id = c.country_id →
      x.keywords = falsyToNone c.keywords ∧ x.wikipedia_link = c.wikipedia_link) ∧
    (∀ r x, x ∈ (process_event ⟨some h⟩ w (.saveRegion r none)).2.1.db.regions →
      x.region_id = r.region_id →
      x.keywords = falsyToNone r.keywords ∧
      x.wikipedia_link = falsyToNone r.wikipedia_link) := by
  refine ⟨⟨rfl, rfl, fun s hs => by simp [falsyToNone, hs]⟩,
    fun c => ⟨rfl, rfl⟩, fun r => ⟨rfl, rfl⟩, ?_, ?_, ?_, ?_⟩
  · intro c hdup
    simp [process_event, handle_save_new_country, hdup]
  · intro r hdup
    simp [process_event, handle_save_new_region, hdup]
  · intro c x hx hid
    simp only [process_event, handle_save_country] at hx
    obtain ⟨r, hr, hxr⟩ := List.mem_map.mp hx
    by_cases hmatch : r.country_id = c.country_id
    · simp [hmatch] at hxr
      subst hxr
      exact ⟨rfl, rfl⟩
    · simp [hmatch] at hxr
      subst hxr
      exact absurd hid hmatch
  · intro r x hx hid
    simp only [process_event, handle_save_region] at hx
    obtain ⟨y, hy, hxy⟩ := List.mem_map.mp hx
    by_cases hmatch : y.region_id = r.region_id
    · simp [hmatch] at hxy
      subst hxy
      exact ⟨rfl, rfl⟩
    · simp [hmatch] at hxy
      subst hxy
      exact absurd hid hmatch

/-- Witness for C10: saving a new country with empty-string keywords into
`dbSample` stores null keywords while keeping the verbatim empty-string
wikipedia_link. -/
theorem falsy_keywords_bound_as_null_witness :
    (process_event ⟨some 0⟩ wSample
        (.saveNewCountry ⟨12, "DE", "Germany", 3, some "", some ""⟩ none)).2.1.db.countries =
      wSample.db.countries ++ [countryInsertRow ⟨12, "DE", "Germany", 3, some "", some ""⟩] :=
  (falsy_keywords_bound_as_null wSample 0).2.2.2.1
    ⟨12, "DE", "Germany", 3, some "", some ""⟩ (by decide)

/-- C9 counterexample: the event bus never validates its configuration — a
second view registration is accepted silently (the dispatch still succeeds,
with the later view simply replacing the earlier one), and with zero
registrations nothing is rejected eagerly: the failure is an uncaught
AttributeError at first dispatch, not a configuration error. -/
theorem eventbus_no_registration_validation_cex :
    ((((EventBus.new : EventBus Nat Nat).register_view 1).register_view 2).register_engine 5).initiate_event
        (fun _ _ => [Event.endApplication]) Request.quitInitiated =
      Except.ok [Event.endApplication] ∧
    (((EventBus.new : EventBus Nat Nat).register_view 1).register_view 2).view = some 2 ∧
    (EventBus.new : EventBus Nat Nat).initiate_event
        (fun _ _ => [Event.endApplication]) Request.quitInitiated =
      Except.error attrProcessEventMsg := ⟨rfl, rfl, rfl⟩

/-- C9 amended: registration performs no validation — each register call
unconditionally overwrites the corresponding field and never fails;
dispatching with no engine registered fails only at that moment, with an
uncaught AttributeError rather than an eager configuration error; with an
engine and a view registered, dispatch forwards the engine's response events
in order. -/
theorem eventbus_registration_behavior {V E : Type} (b : EventBus V E)
    (proc : E → Request → List Event) (ev : Request) :
    (∀ v, (b.register_view v).view = some v ∧ (b.register_view v).engine = b.engine) ∧
    (∀ e, (b.register_engine e).engine = some e ∧ (b.register_engine e).view = b.view) ∧
    (b.engine = none → b.initiate_event proc ev = .error attrProcessEventMsg) ∧
    (∀ eng v, b.engine = some eng → b.view = some v →
      b.initiate_event proc ev = .ok (proc eng ev)) := by
  obtain ⟨bv, be, bd⟩ := b
  refine ⟨fun v => ⟨rfl, rfl⟩, fun e => ⟨rfl, rfl⟩, ?_, ?_⟩
  · intro hbe
    cases hbe
    rfl
  · intro eng v hbe hbv
    cases hbe
    cases hbv
    rfl

/-- Witness for C9 amended: zero registrations crash at dispatch; a view and
an engine registered once dispatch normally. -/
theorem eventbus_registration_behavior_witness :
    (EventBus.new : EventBus Nat Nat).initiate_event
        (fun _ _ => [Event.endApplication]) Request.quitInitiated =
      Except.error attrProcessEventMsg ∧
    (((EventBus.new : EventBus Nat Nat).register_view 3).register_engine 4).initiate_event
        (fun _ _ => [Event.endApplication]) Request.quitInitiated =
      Except.ok [Event.endApplication] :=
  ⟨(eventbus_registration_behavior (EventBus.new : EventBus Nat Nat)
      (fun _ _ => [Event.endApplication]) Request.quitInitiated).2.2.1 rfl,
   (eventbus_registration_behavior
      (((EventBus.new : EventBus Nat Nat).register_view 3).register_engine 4)
      (fun _ _ => [Event.endApplication]) Request.quitInitiated).2.2.2 4 3 rfl rfl⟩

end Project2
